import Mathlib

/-!
Verification of the diffusion scheduling and sampling-loop orchestration in
`paddlespeech/t2s/modules/diffusion.py` (classes `WaveNetDenoiser` and
`GaussianDiffusion`).

Modelling choices:
* Tensors are modelled by their shape together with flat rational data; all
  numeric tensor operations of the external `ppdiffusers` schedulers and of the
  denoiser network are abstract function parameters (the claims under
  verification are about the orchestration code, which treats them as opaque).
* Python strings are modelled as lists of Unicode code points (`PyStr`), and
  Python floats as rationals; Python `int(...)` truncation is `pyInt`.
* Each `inference` run additionally returns the ordered list of observable
  events (scheduler setup, warm-start noising, model/scheduler invocations and
  callback invocations), which makes the callback cadence and the relative
  order of computations provable statements.
-/

namespace PaddleDiffusion

/-- A tensor, modelled as its shape together with flat rational data. -/
structure Tensor where
  shape : List Nat
  data : List ℚ
deriving Repr, DecidableEq

/-- A Python string, modelled as its list of Unicode code points. -/
abbrev PyStr := List Nat

/-- Code points of a string literal. -/
def strCodes (s : String) : PyStr := s.toList.map Char.toNat

/-- Python `str.lower()` on one ASCII code point: `A`-`Z` map to `a`-`z`. -/
def pyLower (n : Nat) : Nat := if 65 ≤ n ∧ n ≤ 90 then n + 32 else n

/-- Python `int(...)` on a rational: truncation toward zero. -/
def pyInt (q : ℚ) : Int := if q < 0 then ⌈q⌉ else ⌊q⌋

/-- Configuration fields of `GaussianDiffusion` (`__init__`, lines 297-317 of
`diffusion.py`): the construction parameters stored on the object. -/
structure GaussianDiffusion where
  num_train_timesteps : Nat
  beta_start : ℚ
  beta_end : ℚ
  beta_schedule : PyStr
  num_max_timesteps : Option Nat
deriving Repr, DecidableEq

/-- The parameters `inference` passes to the scheduler class it instantiates
(lines 413-417). -/
structure SchedulerCfg where
  num_train_timesteps : Nat
  beta_start : ℚ
  beta_end : ℚ
  beta_schedule : PyStr
deriving Repr, DecidableEq

/-- The configuration record `inference` builds from `self` (lines 413-417). -/
def cfgOf (self : GaussianDiffusion) : SchedulerCfg :=
  ⟨self.num_train_timesteps, self.beta_start, self.beta_end, self.beta_schedule⟩

/-- Modelled from the spec: the capability set of a stepping strategy
(`ppdiffusers` scheduler), which is an external collaborator of this module:
`set_timesteps`, the descending `timesteps` sequence it produces, `order`,
`scale_model_input`, `step` and `add_noise`.  The numeric behaviour is left
abstract; only the interface is fixed. -/
structure SchedulerImpl where
  setTimesteps : Nat → List Nat
  order : Nat
  scaleModelInput : Tensor → Nat → Tensor
  stepFn : Tensor → Nat → Tensor → Tensor
  addNoise : Tensor → Tensor → List Nat → Tensor

/-- A scheduler class: constructing it from the configuration yields an
instance (line 413). -/
abbrev SchedulerMk := SchedulerCfg → SchedulerImpl

/-- Errors `inference` can raise: the `ValueError` of line 411 for an unknown
scheduler type, and the shape assertion of `WaveNetDenoiser.forward`
(line 148). -/
inductive InferError where
  | unknownScheduler (scheduler_type : PyStr)
  | shapeMismatch
deriving Repr, DecidableEq

/-- Observable events of one `inference` run, in execution order. -/
inductive Event where
  | setTimesteps (n : Nat)
  | addNoise
  | scaleModelInput (t : Nat)
  | denoiserCall (t : Nat)
  | schedStep (t : Nat)
  | callbackCall (i t total : Nat)
deriving Repr, DecidableEq

/-- The scheduler lookup of lines 404-408: scan the registered class names and
take the first whose *lowercased* name equals `scheduler_type + "scheduler"`
(the caller's string is not lowercased). -/
def lookupScheduler (registry : List (PyStr × SchedulerMk)) (scheduler_type : PyStr) :
    Option SchedulerMk :=
  (registry.find? (fun p => p.1.map pyLower == scheduler_type ++ strCodes "scheduler")).map
    Prod.snd

/-- Lines 427-430: an absent or out-of-range `strength` is replaced by
`num_max_timesteps / num_train_timesteps` when the cap is configured, else by
`None`; an in-range explicit value is kept. -/
def fallbackStrength (self : GaussianDiffusion) : Option ℚ :=
  match self.num_max_timesteps with
  | some k => some ((k : ℚ) / (self.num_train_timesteps : ℚ))
  | none => none

/-- The strength value in effect after lines 427-430. -/
def resolvedStrength (self : GaussianDiffusion) (strength : Option ℚ) : Option ℚ :=
  match strength with
  | none => fallbackStrength self
  | some s => if s < 0 ∨ 1 < s then fallbackStrength self else some s

/-- Result of the timestep preparation of lines 425-437: the (possibly
truncated) timestep sequence, the reduced `num_inference_steps`, and whether a
warm start is in effect (i.e. whether line 438 runs). -/
structure PrepOut where
  timesteps : List Nat
  num_inference_steps : Int
  warmed : Bool
deriving Repr, DecidableEq

/-- Lines 425-437: when `ref_x` is present and a strength value is in effect,
compute `init_timestep = min(int(N * strength), N)`, `t_start = max(N -
init_timestep, 0)`, truncate the timestep sequence to the suffix from
`t_start` and reduce `num_inference_steps` by `t_start`. -/
def prepareTimesteps (self : GaussianDiffusion) (ts0 : List Nat) (N : Nat)
    (refPresent : Bool) (strength : Option ℚ) : PrepOut :=
  if refPresent then
    match resolvedStrength self strength with
    | none => ⟨ts0, (N : Int), false⟩
    | some s =>
      let init_timestep : Int := min (pyInt ((N : ℚ) * s)) (N : Int)
      let t_start : Int := max ((N : Int) - init_timestep) 0
      ⟨ts0.drop t_start.toNat, (N : Int) - t_start, true⟩
  else ⟨ts0, (N : Int), false⟩

/-- `paddle.Tensor.tile([b])` on a rank-1 tensor: the list repeated `b`
times (line 439 applies it to the one-element slice `timesteps[:1]`). -/
def tile1 (l : List Nat) (b : Nat) : List Nat := (List.replicate b l).flatten

/-- Lines 438-439: when a warm start is in effect, the starting sample is
`scheduler.add_noise(ref_x, noise, timesteps[:1].tile([noise.shape[0]]))`;
otherwise it is `noise` itself (line 423).  The boolean records whether the
warm-start noising ran. -/
def warmInput (S : SchedulerImpl) (noise : Tensor) (ref_x : Option Tensor)
    (prep : PrepOut) : Tensor × Bool :=
  match ref_x with
  | some r =>
    if prep.warmed then
      (S.addNoise r noise (tile1 (prep.timesteps.take 1) (noise.shape.headD 0)), true)
    else (noise, false)
  | none => (noise, false)

/-- The callback condition of lines 456-458: `i == len(timesteps) - 1 or
((i + 1) > num_warmup_steps and (i + 1) % order == 0)`, and then
`callback is not None and i % callback_steps == 0`. -/
def callbackFires (total : Nat) (warmup : Int) (order callback_steps : Nat)
    (hasCallback : Bool) (i : Nat) : Bool :=
  (i == total - 1 || (((i : Int) + 1 > warmup) && (i + 1) % order == 0)) &&
    (hasCallback && i % callback_steps == 0)

/-- The events one successful loop iteration at index `i`, timestep `t` emits
(lines 446-459): scale the model input, call the denoiser, take a scheduler
step, and invoke the callback when the cadence condition holds. -/
def iterEvents (order : Nat) (hasCallback : Bool) (callback_steps total : Nat)
    (warmup : Int) (i t : Nat) : List Event :=
  [Event.scaleModelInput t, Event.denoiserCall t, Event.schedStep t] ++
    (if callbackFires total warmup order callback_steps hasCallback i then
      [Event.callbackCall i t total]
    else [])

/-- `WaveNetDenoiser.forward` (lines 134-167), reduced to its contract: the
shape assertion `c.shape[-1] == x.shape[-1]` of line 148 followed by the
network computation, which is abstract here. -/
def waveNetDenoiserForward (net : Tensor → Nat → Tensor → Tensor) (x : Tensor)
    (t : Nat) (c : Tensor) : Except InferError Tensor :=
  if c.shape.getLastD 0 = x.shape.getLastD 0 then Except.ok (net x t c)
  else Except.error InferError.shapeMismatch

/-- The denoising loop of lines 445-459, with the running index made explicit
(`for i, t in enumerate(timesteps)`).  Returns the events emitted and either
the final sample or the error the denoiser's shape assertion raised. -/
def denoiseLoop (S : SchedulerImpl) (net : Tensor → Nat → Tensor → Tensor)
    (cond : Tensor) (hasCallback : Bool) (callback_steps total : Nat)
    (warmup : Int) : Nat → List Nat → Tensor → List Event × Except InferError Tensor
  | _, [], x => ([], Except.ok x)
  | i, t :: rest, x =>
    let x1 := S.scaleModelInput x t
    match waveNetDenoiserForward net x1 t cond with
    | Except.error e => ([Event.scaleModelInput t], Except.error e)
    | Except.ok noise_pred =>
      let next := denoiseLoop S net cond hasCallback callback_steps total warmup
        (i + 1) rest (S.stepFn noise_pred t x1)
      (iterEvents S.order hasCallback callback_steps total warmup i t ++ next.1, next.2)

/-- Result of one `inference` call: the event trace, the returned sample or
the raised error, and the `GaussianDiffusion` object's state after the call. -/
structure InferOut where
  trace : List Event
  result : Except InferError Tensor
  final : GaussianDiffusion
deriving Repr

/-- Lines 413-461 of `GaussianDiffusion.inference`, after the scheduler class
has been found: instantiate it, call `set_timesteps`, prepare (possibly
truncate and warm-start) the timestep sequence, compute `num_warmup_steps =
len(timesteps) - num_inference_steps * order`, and run the denoising loop. -/
def inferenceCore (S : SchedulerImpl) (self : GaussianDiffusion)
    (net : Tensor → Nat → Tensor → Tensor) (noise cond : Tensor)
    (ref_x : Option Tensor) (num_inference_steps : Nat) (strength : Option ℚ)
    (hasCallback : Bool) (callback_steps : Nat) : InferOut :=
  let ts0 := S.setTimesteps num_inference_steps
  let prep := prepareTimesteps self ts0 num_inference_steps ref_x.isSome strength
  let wi := warmInput S noise ref_x prep
  let warmup : Int := (prep.timesteps.length : Int) -
    prep.num_inference_steps * (S.order : Int)
  let L := denoiseLoop S net cond hasCallback callback_steps prep.timesteps.length
    warmup 0 prep.timesteps wi.1
  ⟨Event.setTimesteps num_inference_steps :: ((if wi.2 then [Event.addNoise] else []) ++ L.1),
   L.2, self⟩

/-- `GaussianDiffusion.inference` (lines 356-461): look the scheduler class up
by name (lines 404-411, `ValueError` when none matches) and run the rest of
the call. -/
def inference (registry : List (PyStr × SchedulerMk)) (self : GaussianDiffusion)
    (net : Tensor → Nat → Tensor → Tensor) (noise cond : Tensor)
    (ref_x : Option Tensor) (num_inference_steps : Nat) (strength : Option ℚ)
    (scheduler_type : PyStr) (hasCallback : Bool) (callback_steps : Nat) : InferOut :=
  match lookupScheduler registry scheduler_type with
  | none => ⟨[], Except.error (InferError.unknownScheduler scheduler_type), self⟩
  | some mk =>
    inferenceCore (mk (cfgOf self)) self net noise cond ref_x num_inference_steps
      strength hasCallback callback_steps

/-- Lines 342-344: the cap the training-time timestep sampling uses —
`num_max_timesteps` when configured, else `num_train_timesteps`. -/
def effectiveTimestepCap (self : GaussianDiffusion) : Nat :=
  match self.num_max_timesteps with
  | some k => k
  | none => self.num_train_timesteps

/-- Result of one training-pair call (`GaussianDiffusion.forward`): the
denoiser output, the noise target, and the sampled per-batch timesteps (the
last is exposed so that the sampling can be specified). -/
structure ForwardOut where
  y : Tensor
  target : Tensor
  timesteps : List Nat
deriving Repr, DecidableEq

/-- `GaussianDiffusion.forward` (lines 319-354): sample `noise = randn(x.shape)`
(which is also the returned target), sample `x.shape[0]` timesteps via
`randint(0, cap, (x.shape[0],))`, add noise to `x` at those timesteps and run
the denoiser.  The random sources `randn`/`randint` and the numeric operations
`add_noise`/`net` are the external collaborators, passed as functions. -/
def gdForward (self : GaussianDiffusion) (randn : List Nat → Tensor)
    (randint : Nat → Nat → Nat → List Nat)
    (addNoise : Tensor → Tensor → List Nat → Tensor)
    (net : Tensor → List Nat → Tensor → Tensor) (x cond : Tensor) : ForwardOut :=
  let noise := randn x.shape
  let target := noise
  let timesteps := randint 0 (effectiveTimestepCap self) (x.shape.headD 0)
  let noisy_images := addNoise x noise timesteps
  ⟨net noisy_images timesteps cond, target, timesteps⟩

/-! ### Concrete instances used by the witnesses -/

/-- Modelled from the spec: a single-step (`order = 1`) stepping strategy whose
`set_timesteps(n)` is an evenly spaced descending sequence of length `n`
(§4.3 of the design); its numeric tensor operations are abstracted to
shape-preserving identities, since every theorem below holds for arbitrary
implementations and this instance only serves to evaluate them on concrete
inputs. -/
def exampleMk : SchedulerMk := fun cfg =>
  { setTimesteps := fun n =>
      ((List.range n).map (fun i => i * (cfg.num_train_timesteps / n))).reverse
    order := 1
    scaleModelInput := fun x _ => x
    stepFn := fun _ _ x => x
    addNoise := fun x _ _ => x }

/-- A registry holding the one example scheduler class, under its real
`ppdiffusers` class name. -/
def exampleRegistry : List (PyStr × SchedulerMk) := [(strCodes "DDPMScheduler", exampleMk)]

/-- A `GaussianDiffusion` as in the module's docstring example: 1000 training
timesteps, `num_max_timesteps = 60`. -/
def exampleModel : GaussianDiffusion :=
  ⟨1000, 1 / 10000, 1 / 50, strCodes "squaredcos_cap_v2", some 60⟩

/-- A `GaussianDiffusion` with no `num_max_timesteps` cap and a small timestep
count, for concrete runs. -/
def modelNoCap : GaussianDiffusion := ⟨10, 1 / 10000, 1 / 50, strCodes "linear", none⟩

/-- The abstract denoiser network used in witnesses: returns its input. -/
def exNet : Tensor → Nat → Tensor → Tensor := fun x _ _ => x

/-- A noise tensor of shape `[1, 1, 3]`. -/
def noiseEx : Tensor := ⟨[1, 1, 3], []⟩

/-- A condition tensor whose trailing dimension matches `noiseEx`. -/
def condEx : Tensor := ⟨[1, 2, 3], []⟩

/-- A condition tensor whose trailing dimension (5) differs from `noiseEx`'s. -/
def condMismatch : Tensor := ⟨[1, 2, 5], []⟩

/-- A reference sample of the same shape as `noiseEx`. -/
def refEx : Tensor := ⟨[1, 1, 3], []⟩

/-! ### Helper lemmas -/

/-- Python `int(...)` agrees with the floor on nonnegative rationals. -/
lemma pyInt_eq_floor {q : ℚ} (h : 0 ≤ q) : pyInt q = ⌊q⌋ := by
  unfold pyInt
  rw [if_neg (not_lt.2 h)]

/-- Tiling the empty slice gives the empty list. -/
lemma tile1_nil (b : Nat) : tile1 [] b = [] := by
  induction b with
  | zero => rfl
  | succ n _ => simp [tile1, List.replicate_succ]

/-- `inference` after a successful scheduler lookup. -/
lemma inference_some (registry : List (PyStr × SchedulerMk)) (scheduler_type : PyStr)
    (mk : SchedulerMk) (h : lookupScheduler registry scheduler_type = some mk)
    (self : GaussianDiffusion) (net : Tensor → Nat → Tensor → Tensor)
    (noise cond : Tensor) (ref_x : Option Tensor) (N : Nat) (strength : Option ℚ)
    (hasCallback : Bool) (callback_steps : Nat) :
    inference registry self net noise cond ref_x N strength scheduler_type
        hasCallback callback_steps =
      inferenceCore (mk (cfgOf self)) self net noise cond ref_x N strength
        hasCallback callback_steps := by
  unfold inference
  rw [h]

/-- Lowercasing a code point never yields an ASCII uppercase letter. -/
lemma pyLower_not_upper (n : Nat) : ¬(65 ≤ pyLower n ∧ pyLower n ≤ 90) := by
  unfold pyLower
  split <;> omega

/-- When the denoising loop succeeds, its event trace is the concatenation of
the per-iteration event blocks. -/
def okTrace (order : Nat) (hasCallback : Bool) (callback_steps total : Nat)
    (warmup : Int) : Nat → List Nat → List Event
  | _, [] => []
  | i, t :: rest =>
    iterEvents order hasCallback callback_steps total warmup i t ++
      okTrace order hasCallback callback_steps total warmup (i + 1) rest

lemma denoiseLoop_ok (S : SchedulerImpl) (net : Tensor → Nat → Tensor → Tensor)
    (cond : Tensor) (hc : Bool) (cb total : Nat) (warmup : Int) :
    ∀ (ts : List Nat) (i : Nat) (x out : Tensor),
      (denoiseLoop S net cond hc cb total warmup i ts x).2 = Except.ok out →
      (denoiseLoop S net cond hc cb total warmup i ts x).1 =
        okTrace S.order hc cb total warmup i ts := by
  intro ts
  induction ts with
  | nil => intro i x out _; rfl
  | cons t rest ih =>
    intro i x out h
    rcases hW : waveNetDenoiserForward net (S.scaleModelInput x t) t cond with e | np
    · rw [denoiseLoop, hW] at h
      exact absurd h (by simp)
    · rw [denoiseLoop, hW] at h ⊢
      simp only [okTrace, List.append_cancel_left_eq]
      exact ih (i + 1) (S.stepFn np t (S.scaleModelInput x t)) out h

/-- The denoising loop never raises the unknown-scheduler error. -/
lemma denoiseLoop_no_unknown (S : SchedulerImpl) (net : Tensor → Nat → Tensor → Tensor)
    (cond : Tensor) (hc : Bool) (cb total : Nat) (warmup : Int) (ty : PyStr) :
    ∀ (ts : List Nat) (i : Nat) (x : Tensor),
      (denoiseLoop S net cond hc cb total warmup i ts x).2 ≠
        Except.error (InferError.unknownScheduler ty) := by
  intro ts
  induction ts with
  | nil => intro i x; simp [denoiseLoop]
  | cons t rest ih =>
    intro i x
    rcases hW : waveNetDenoiserForward net (S.scaleModelInput x t) t cond with e | np
    · rw [denoiseLoop, hW]
      have : e = InferError.shapeMismatch := by
        unfold waveNetDenoiserForward at hW
        split at hW
        · exact absurd hW (by simp)
        · simpa using hW.symm
      simp [this]
    · rw [denoiseLoop, hW]
      exact ih (i + 1) (S.stepFn np t (S.scaleModelInput x t))

/-- A callback event belongs to a per-iteration block exactly when the cadence
condition fired at that index. -/
lemma callbackCall_mem_iterEvents (order : Nat) (hc : Bool) (cb total : Nat)
    (warmup : Int) (k t i t' : Nat) :
    Event.callbackCall i t' total ∈ iterEvents order hc cb total warmup k t ↔
      (callbackFires total warmup order cb hc k = true ∧ i = k ∧ t' = t) := by
  unfold iterEvents
  split <;> rename_i hf <;> simp [hf]

/-- Which indices carry a callback event in a successful loop trace. -/
lemma callback_mem_okTrace (order : Nat) (hc : Bool) (cb total : Nat) (warmup : Int) :
    ∀ (ts : List Nat) (k i : Nat),
      (∃ t', Event.callbackCall i t' total ∈ okTrace order hc cb total warmup k ts) ↔
      (k ≤ i ∧ i - k < ts.length ∧
        callbackFires total warmup order cb hc i = true) := by
  intro ts
  induction ts with
  | nil => intro k i; simp [okTrace]
  | cons t rest ih =>
    intro k i
    unfold okTrace
    constructor
    · rintro ⟨t', ht'⟩
      rcases List.mem_append.1 ht' with hmem | hmem
      · obtain ⟨hf, hik, -⟩ := (callbackCall_mem_iterEvents order hc cb total warmup
          k t i t').1 hmem
        exact ⟨hik.ge, by simp [hik], by rwa [hik]⟩
      · obtain ⟨hk, hlt, hf⟩ := (ih (k + 1) i).1 ⟨t', hmem⟩
        exact ⟨by omega, by simp; omega, hf⟩
    · rintro ⟨hk, hlt, hf⟩
      by_cases hik : i = k
      · subst hik
        exact ⟨t, List.mem_append.2 (Or.inl ((callbackCall_mem_iterEvents order hc cb
          total warmup i t i t).2 ⟨hf, rfl, rfl⟩))⟩
      · obtain ⟨t', ht'⟩ := (ih (k + 1) i).2 ⟨by omega, by simp at hlt; omega, hf⟩
        exact ⟨t', List.mem_append.2 (Or.inr ht')⟩

/-- Extract the index of a callback event. -/
def cbIdx : Event → Option Nat
  | Event.callbackCall i _ _ => some i
  | _ => none

/-- When the cadence condition holds at every index, a successful loop trace
carries exactly one callback per iteration, at consecutive indices. -/
lemma filterMap_okTrace (order : Nat) (hc : Bool) (cb total : Nat) (warmup : Int)
    (hall : ∀ j, callbackFires total warmup order cb hc j = true) :
    ∀ (ts : List Nat) (k : Nat),
      (okTrace order hc cb total warmup k ts).filterMap cbIdx =
        List.range' k ts.length := by
  intro ts
  induction ts with
  | nil => intro k; rfl
  | cons t rest ih =>
    intro k
    unfold okTrace
    rw [List.filterMap_append, ih (k + 1)]
    simp [iterEvents, hall k, cbIdx, List.length_cons, List.range'_succ]

/-- Timestep preparation only consults `strength` through `resolvedStrength`. -/
lemma prepareTimesteps_congr (self : GaussianDiffusion) (ts0 : List Nat) (N : Nat)
    (refPresent : Bool) {s1 s2 : Option ℚ}
    (h : resolvedStrength self s1 = resolvedStrength self s2) :
    prepareTimesteps self ts0 N refPresent s1 = prepareTimesteps self ts0 N refPresent s2 := by
  unfold prepareTimesteps
  rw [h]

/-- `inferenceCore` only consults `strength` through `resolvedStrength`. -/
lemma inferenceCore_strength_congr (S : SchedulerImpl) (self : GaussianDiffusion)
    (net : Tensor → Nat → Tensor → Tensor) (noise cond : Tensor)
    (ref_x : Option Tensor) (N : Nat) {s1 s2 : Option ℚ}
    (h : resolvedStrength self s1 = resolvedStrength self s2)
    (hc : Bool) (cb : Nat) :
    inferenceCore S self net noise cond ref_x N s1 hc cb =
      inferenceCore S self net noise cond ref_x N s2 hc cb := by
  simp only [inferenceCore, prepareTimesteps_congr self (S.setTimesteps N) N ref_x.isSome h]

/-- The general truncation shape, with the claim's `⌊·⌋` in place of the
source's `int(...)` (they agree on the nonnegative products that arise). -/
lemma prepareTimesteps_of_resolved (self : GaussianDiffusion) (ts0 : List Nat)
    (N : Nat) (strength : Option ℚ) (s : ℚ)
    (hres : resolvedStrength self strength = some s) (hs0 : 0 ≤ s) :
    prepareTimesteps self ts0 N true strength =
      ⟨ts0.drop (max ((N : Int) - min ⌊(N : ℚ) * s⌋ (N : Int)) 0).toNat,
       (N : Int) - max ((N : Int) - min ⌊(N : ℚ) * s⌋ (N : Int)) 0, true⟩ := by
  have hq : (0 : ℚ) ≤ (N : ℚ) * s := mul_nonneg (Nat.cast_nonneg N) hs0
  unfold prepareTimesteps
  rw [hres]
  simp only [if_true, pyInt_eq_floor hq]

/-- Without `ref_x`, the timestep preparation is the identity. -/
lemma prepareTimesteps_noRef (self : GaussianDiffusion) (ts0 : List Nat) (N : Nat)
    (strength : Option ℚ) :
    prepareTimesteps self ts0 N false strength = ⟨ts0, (N : Int), false⟩ := by
  unfold prepareTimesteps
  simp

/-- With an explicit strength of `0`, `init_timestep` is `0`, `t_start` is the
full `num_inference_steps`, and the reduced step count is `0`. -/
lemma prepareTimesteps_zero (self : GaussianDiffusion) (ts0 : List Nat) (N : Nat) :
    prepareTimesteps self ts0 N true (some 0) = ⟨ts0.drop N, 0, true⟩ := by
  have hres : resolvedStrength self (some 0) = some 0 := by
    simp only [resolvedStrength]
    rw [if_neg (by norm_num)]
  unfold prepareTimesteps
  rw [hres]
  have hmin : min (pyInt ((N : ℚ) * 0)) ((N : Nat) : Int) = 0 := by
    have h0 : pyInt ((N : ℚ) * 0) = 0 := by norm_num [pyInt]
    rw [h0]
    exact min_eq_left (Int.natCast_nonneg N)
  simp only [if_true, hmin, sub_zero]
  rw [max_eq_left (Int.natCast_nonneg N), Int.toNat_natCast, sub_self]

/-- A loop iteration whose shape assertion fails stops the loop with the
shape-mismatch error right after `scale_model_input`. -/
lemma denoiseLoop_cons_error (S : SchedulerImpl) (net : Tensor → Nat → Tensor → Tensor)
    (cond : Tensor) (hc : Bool) (cb total : Nat) (warmup : Int) (i t : Nat)
    (rest : List Nat) (x : Tensor)
    (h : ¬(cond.shape.getLastD 0 = (S.scaleModelInput x t).shape.getLastD 0)) :
    denoiseLoop S net cond hc cb total warmup i (t :: rest) x =
      ([Event.scaleModelInput t], Except.error InferError.shapeMismatch) := by
  have hW : waveNetDenoiserForward net (S.scaleModelInput x t) t cond =
      Except.error InferError.shapeMismatch := by
    unfold waveNetDenoiserForward
    rw [if_neg h]
  simp only [denoiseLoop, hW]

/-- With `order = 1`, `callback_steps = 1`, a callback present and no warmup,
the cadence condition holds at every index. -/
lemma callbackFires_order_one (total : Nat) (j : Nat) :
    callbackFires total 0 1 1 true j = true := by
  unfold callbackFires
  simp [Nat.mod_one]

/-! ### The claims -/

/-- C1: for every `inference` call with `ref_x` supplied and an effective
strength `s ∈ [0, 1]`, the timestep sequence is truncated exactly as
`init_timestep = min(⌊num_inference_steps * s⌋, num_inference_steps)`,
`t_start = max(num_inference_steps - init_timestep, 0)`, the sequence becomes
the suffix starting at `t_start`, and `num_inference_steps` is reduced by
`t_start`; in particular with `num_train_timesteps = 1000`,
`num_inference_steps = 1000`, `num_max_timesteps = 60` and no explicit
strength, the truncated sequence has exactly 60 entries. -/
theorem C1_strength_truncation :
    (∀ (self : GaussianDiffusion) (ts0 : List Nat) (N : Nat) (strength : Option ℚ)
        (s : ℚ), resolvedStrength self strength = some s → 0 ≤ s → s ≤ 1 →
        prepareTimesteps self ts0 N true strength =
          ⟨ts0.drop (max ((N : Int) - min ⌊(N : ℚ) * s⌋ (N : Int)) 0).toNat,
           (N : Int) - max ((N : Int) - min ⌊(N : ℚ) * s⌋ (N : Int)) 0, true⟩) ∧
    (∀ ts0 : List Nat, ts0.length = 1000 →
        (prepareTimesteps exampleModel ts0 1000 true none).timesteps.length = 60 ∧
        (prepareTimesteps exampleModel ts0 1000 true none).num_inference_steps = 60) := by
  constructor
  · intro self ts0 N strength s hres hs0 _
    exact prepareTimesteps_of_resolved self ts0 N strength s hres hs0
  · intro ts0 hlen
    have hres : resolvedStrength exampleModel none = some (((60 : Nat) : ℚ) / ((1000 : Nat) : ℚ)) := rfl
    rw [prepareTimesteps_of_resolved exampleModel ts0 1000 none _ hres (by positivity)]
    have h60 : ⌊((1000 : Nat) : ℚ) * (((60 : Nat) : ℚ) / ((1000 : Nat) : ℚ))⌋ = (60 : Int) := by
      norm_num
    rw [h60]
    norm_num [hlen]
    decide

/-- Witness for C1 at concrete inputs. -/
theorem C1_strength_truncation_witness :
    prepareTimesteps modelNoCap [3, 2, 1, 0] 4 true (some (1 / 2)) = ⟨[1, 0], 2, true⟩ ∧
    (prepareTimesteps exampleModel ((List.range 1000).reverse) 1000 true none).timesteps.length
      = 60 := by
  constructor
  · rw [C1_strength_truncation.1 modelNoCap [3, 2, 1, 0] 4 (some (1 / 2)) (1 / 2)
      (by norm_num [resolvedStrength]) (by norm_num) (by norm_num)]
    have h2 : ⌊((4 : Nat) : ℚ) * (1 / 2)⌋ = (2 : Int) := by norm_num
    rw [h2]
    norm_num
    decide
  · exact (C1_strength_truncation.2 ((List.range 1000).reverse) (by simp)).1

/-- C4: for every `inference` call with `ref_x` supplied and `strength` absent
or outside `[0, 1]`, no error is raised on account of strength: the call
behaves exactly as with `strength` unspecified, the value is replaced by
`num_max_timesteps / num_train_timesteps` when the cap is configured, and
otherwise no truncation at all is applied. -/
theorem C4_invalid_strength_fallback :
    (∀ (self : GaussianDiffusion) (s : ℚ), s < 0 ∨ 1 < s →
        resolvedStrength self (some s) = fallbackStrength self) ∧
    (∀ self : GaussianDiffusion, resolvedStrength self none = fallbackStrength self) ∧
    (∀ (self : GaussianDiffusion) (k : Nat), self.num_max_timesteps = some k →
        fallbackStrength self = some ((k : ℚ) / (self.num_train_timesteps : ℚ))) ∧
    (∀ (self : GaussianDiffusion) (ts0 : List Nat) (N : Nat) (refPresent : Bool)
        (strength : Option ℚ), self.num_max_timesteps = none →
        (strength = none ∨ ∃ s, strength = some s ∧ (s < 0 ∨ 1 < s)) →
        prepareTimesteps self ts0 N refPresent strength = ⟨ts0, (N : Int), false⟩) ∧
    (∀ (registry : List (PyStr × SchedulerMk)) (self : GaussianDiffusion)
        (net : Tensor → Nat → Tensor → Tensor) (noise cond : Tensor)
        (ref_x : Option Tensor) (N : Nat) (s : ℚ) (ty : PyStr) (hc : Bool) (cb : Nat),
        s < 0 ∨ 1 < s →
        inference registry self net noise cond ref_x N (some s) ty hc cb =
          inference registry self net noise cond ref_x N none ty hc cb) := by
  refine ⟨?_, ?_, ?_, ?_, ?_⟩
  · intro self s h
    simp only [resolvedStrength]
    rw [if_pos h]
  · intro self
    rfl
  · intro self k h
    unfold fallbackStrength
    rw [h]
  · intro self ts0 N refPresent strength hmax hbad
    have hres : resolvedStrength self strength = none := by
      have hfb : fallbackStrength self = none := by
        unfold fallbackStrength
        rw [hmax]
      rcases hbad with h | ⟨s, hs, hsbad⟩
      · rw [h]; exact hfb
      · rw [hs]
        simp only [resolvedStrength]
        rw [if_pos hsbad]
        exact hfb
    unfold prepareTimesteps
    rw [hres]
    split <;> rfl
  · intro registry self net noise cond ref_x N s ty hc cb h
    have hres : resolvedStrength self (some s) = resolvedStrength self none := by
      simp only [resolvedStrength]
      rw [if_pos h]
    unfold inference
    cases lookupScheduler registry ty with
    | none => rfl
    | some mk =>
      exact inferenceCore_strength_congr (mk (cfgOf self)) self net noise cond ref_x N
        hres hc cb

/-- Witness for C4 at concrete inputs. -/
theorem C4_invalid_strength_fallback_witness :
    resolvedStrength exampleModel (some 2) = fallbackStrength exampleModel ∧
    resolvedStrength exampleModel none = fallbackStrength exampleModel ∧
    fallbackStrength exampleModel = some (((60 : Nat) : ℚ) / ((exampleModel.num_train_timesteps : Nat) : ℚ)) ∧
    prepareTimesteps modelNoCap [5, 0] 2 true (some 2) = ⟨[5, 0], ((2 : Nat) : Int), false⟩ ∧
    inference exampleRegistry modelNoCap exNet noiseEx condEx (some refEx) 2 (some 2)
        (strCodes "ddpm") true 1 =
      inference exampleRegistry modelNoCap exNet noiseEx condEx (some refEx) 2 none
        (strCodes "ddpm") true 1 :=
  ⟨C4_invalid_strength_fallback.1 exampleModel 2 (by norm_num),
   C4_invalid_strength_fallback.2.1 exampleModel,
   C4_invalid_strength_fallback.2.2.1 exampleModel 60 rfl,
   C4_invalid_strength_fallback.2.2.2.1 modelNoCap [5, 0] 2 true (some 2) rfl
     (Or.inr ⟨2, rfl, by norm_num⟩),
   C4_invalid_strength_fallback.2.2.2.2 exampleRegistry modelNoCap exNet noiseEx condEx
     (some refEx) 2 2 (strCodes "ddpm") true 1 (by norm_num)⟩

/-- C6: an unknown `scheduler_type` makes `inference` fail with the
configuration error before `set_timesteps`, warm-start noising or any
denoising step runs (the event trace is empty); a known name never triggers
this error. -/
theorem C6_unknown_scheduler_type :
    (∀ (registry : List (PyStr × SchedulerMk)) (self : GaussianDiffusion)
        (net : Tensor → Nat → Tensor → Tensor) (noise cond : Tensor)
        (ref_x : Option Tensor) (N : Nat) (strength : Option ℚ) (ty : PyStr)
        (hc : Bool) (cb : Nat), lookupScheduler registry ty = none →
        inference registry self net noise cond ref_x N strength ty hc cb =
          ⟨[], Except.error (InferError.unknownScheduler ty), self⟩) ∧
    (∀ (registry : List (PyStr × SchedulerMk)) (self : GaussianDiffusion)
        (net : Tensor → Nat → Tensor → Tensor) (noise cond : Tensor)
        (ref_x : Option Tensor) (N : Nat) (strength : Option ℚ) (ty : PyStr)
        (hc : Bool) (cb : Nat) (mk : SchedulerMk),
        lookupScheduler registry ty = some mk →
        (inference registry self net noise cond ref_x N strength ty hc cb).result ≠
          Except.error (InferError.unknownScheduler ty)) := by
  constructor
  · intro registry self net noise cond ref_x N strength ty hc cb h
    unfold inference
    rw [h]
  · intro registry self net noise cond ref_x N strength ty hc cb mk h
    rw [inference_some registry ty mk h]
    unfold inferenceCore
    exact denoiseLoop_no_unknown _ _ _ _ _ _ _ _ _ _ _

/-- Witness for C6 at concrete inputs. -/
theorem C6_unknown_scheduler_type_witness :
    inference exampleRegistry modelNoCap exNet noiseEx condEx none 2 none
        (strCodes "pndm") true 1 =
      ⟨[], Except.error (InferError.unknownScheduler (strCodes "pndm")), modelNoCap⟩ ∧
    (inference exampleRegistry modelNoCap exNet noiseEx condEx none 2 none
        (strCodes "ddpm") true 1).result ≠
      Except.error (InferError.unknownScheduler (strCodes "ddpm")) :=
  ⟨C6_unknown_scheduler_type.1 exampleRegistry modelNoCap exNet noiseEx condEx none 2 none
     (strCodes "pndm") true 1 rfl,
   C6_unknown_scheduler_type.2 exampleRegistry modelNoCap exNet noiseEx condEx none 2 none
     (strCodes "ddpm") true 1 exampleMk rfl⟩

/-- C9: an `inference` call leaves the `GaussianDiffusion` object's
configuration fields unchanged (in this pure embedding, caller-owned tensors
are values and cannot be mutated; the trace records the only outward
interactions). -/
theorem C9_no_state_mutation (registry : List (PyStr × SchedulerMk))
    (self : GaussianDiffusion) (net : Tensor → Nat → Tensor → Tensor)
    (noise cond : Tensor) (ref_x : Option Tensor) (N : Nat) (strength : Option ℚ)
    (ty : PyStr) (hc : Bool) (cb : Nat) :
    (inference registry self net noise cond ref_x N strength ty hc cb).final = self := by
  unfold inference
  cases lookupScheduler registry ty <;> rfl

/-- C10: the scheduler lookup succeeds exactly when some registered class
name, lowercased, equals `scheduler_type ++ "scheduler"`; the caller's string
is never lowercased, so any `scheduler_type` containing an ASCII uppercase
letter fails even though its lowercase spelling is accepted. -/
theorem C10_lookup_lowercases_registry_only :
    (∀ (registry : List (PyStr × SchedulerMk)) (ty : PyStr),
        (lookupScheduler registry ty).isSome = true ↔
          ∃ p ∈ registry, p.1.map pyLower = ty ++ strCodes "scheduler") ∧
    (∀ (registry : List (PyStr × SchedulerMk)) (ty : PyStr),
        (∃ c ∈ ty, 65 ≤ c ∧ c ≤ 90) → lookupScheduler registry ty = none) ∧
    lookupScheduler exampleRegistry (strCodes "DDPM") = none ∧
    (lookupScheduler exampleRegistry (strCodes "ddpm")).isSome = true := by
  refine ⟨?_, ?_, rfl, rfl⟩
  · intro registry ty
    unfold lookupScheduler
    rw [Option.isSome_map', List.find?_isSome]
    simp only [beq_iff_eq]
  · rintro registry ty ⟨c, hc_mem, hc1, hc2⟩
    unfold lookupScheduler
    rw [Option.map_eq_none']
    rw [List.find?_eq_none]
    intro p _ hp
    have heq : p.1.map pyLower = ty ++ strCodes "scheduler" := by
      exact beq_iff_eq.1 hp
    have hc_app : c ∈ ty ++ strCodes "scheduler" := List.mem_append.2 (Or.inl hc_mem)
    rw [← heq] at hc_app
    obtain ⟨d, -, hd⟩ := List.mem_map.1 hc_app
    exact pyLower_not_upper d ⟨hd ▸ hc1, hd ▸ hc2⟩

/-- Witness for C10 at concrete inputs. -/
theorem C10_lookup_lowercases_registry_only_witness :
    ((lookupScheduler exampleRegistry (strCodes "ddpm")).isSome = true ↔
      ∃ p ∈ exampleRegistry, p.1.map pyLower = strCodes "ddpm" ++ strCodes "scheduler") ∧
    lookupScheduler exampleRegistry (strCodes "DDPM") = none :=
  ⟨C10_lookup_lowercases_registry_only.1 exampleRegistry (strCodes "ddpm"),
   C10_lookup_lowercases_registry_only.2.1 exampleRegistry (strCodes "DDPM")
     ⟨68, by decide, by decide, by decide⟩⟩

/-- C5: with `strength = 0` explicitly supplied and `ref_x` present,
`init_timestep = 0`, `t_start = num_inference_steps`, the truncated timestep
sequence is empty, the denoising loop executes zero iterations (the trace holds
no loop events), and the returned sample is the single warm-start noising of
`ref_x` with the fresh noise — whose timestep argument is the empty slice
`timesteps[:1]` of the emptied sequence (there is no in-range first
timestep). -/
theorem C5_zero_strength_empty_loop :
    (∀ (self : GaussianDiffusion) (ts0 : List Nat) (N : Nat),
        prepareTimesteps self ts0 N true (some 0) = ⟨ts0.drop N, 0, true⟩) ∧
    (∀ (registry : List (PyStr × SchedulerMk)) (self : GaussianDiffusion)
        (net : Tensor → Nat → Tensor → Tensor) (noise cond r : Tensor)
        (ty : PyStr) (hc : Bool) (cb N : Nat) (mk : SchedulerMk),
        lookupScheduler registry ty = some mk →
        ((mk (cfgOf self)).setTimesteps N).length = N →
        inference registry self net noise cond (some r) N (some 0) ty hc cb =
          ⟨[Event.setTimesteps N, Event.addNoise],
           Except.ok ((mk (cfgOf self)).addNoise r noise []), self⟩) := by
  constructor
  · intro self ts0 N
    exact prepareTimesteps_zero self ts0 N
  · intro registry self net noise cond r ty hc cb N mk hlook hlen
    rw [inference_some registry ty mk hlook]
    have hprep : prepareTimesteps self ((mk (cfgOf self)).setTimesteps N) N
        (Option.isSome (some r)) (some 0) = ⟨[], 0, true⟩ := by
      rw [show Option.isSome (some r) = true from rfl,
        prepareTimesteps_zero self ((mk (cfgOf self)).setTimesteps N) N,
        List.drop_eq_nil_of_le (le_of_eq hlen)]
    simp only [inferenceCore, hprep]
    simp [warmInput, tile1_nil, denoiseLoop]

/-- Witness for C5 at concrete inputs. -/
theorem C5_zero_strength_empty_loop_witness :
    prepareTimesteps modelNoCap [5, 0] 2 true (some 0) = ⟨[], 0, true⟩ ∧
    inference exampleRegistry modelNoCap exNet noiseEx condEx (some refEx) 2 (some 0)
        (strCodes "ddpm") true 1 =
      ⟨[Event.setTimesteps 2, Event.addNoise],
       Except.ok ((exampleMk (cfgOf modelNoCap)).addNoise refEx noiseEx []), modelNoCap⟩ := by
  constructor
  · rw [C5_zero_strength_empty_loop.1 modelNoCap [5, 0] 2]
    decide
  · exact C5_zero_strength_empty_loop.2 exampleRegistry modelNoCap exNet noiseEx condEx
      refEx (strCodes "ddpm") true 1 2 exampleMk rfl rfl

/-- C2: in every successful `inference` call, the callback is invoked at loop
iteration `i` exactly when a callback is present, `i` is the last index or
`(i+1) > num_warmup_steps` with `(i+1)` a multiple of the strategy's order,
and `i` is a multiple of `callback_steps`; `num_warmup_steps =
len(timesteps) - num_inference_steps * order` with `num_inference_steps`
already reduced by any truncation. -/
theorem C2_callback_cadence (registry : List (PyStr × SchedulerMk))
    (self : GaussianDiffusion) (net : Tensor → Nat → Tensor → Tensor)
    (noise cond : Tensor) (ref_x : Option Tensor) (N : Nat) (strength : Option ℚ)
    (ty : PyStr) (hc : Bool) (cb : Nat) (mk : SchedulerMk) (out : Tensor) (i : Nat)
    (hlook : lookupScheduler registry ty = some mk)
    (hok : (inference registry self net noise cond ref_x N strength ty hc cb).result =
      Except.ok out) :
    (∃ t, Event.callbackCall i t
        (prepareTimesteps self ((mk (cfgOf self)).setTimesteps N) N ref_x.isSome
          strength).timesteps.length ∈
        (inference registry self net noise cond ref_x N strength ty hc cb).trace) ↔
    (i < (prepareTimesteps self ((mk (cfgOf self)).setTimesteps N) N ref_x.isSome
        strength).timesteps.length ∧
      callbackFires
        (prepareTimesteps self ((mk (cfgOf self)).setTimesteps N) N ref_x.isSome
          strength).timesteps.length
        (((prepareTimesteps self ((mk (cfgOf self)).setTimesteps N) N ref_x.isSome
            strength).timesteps.length : Int) -
          (prepareTimesteps self ((mk (cfgOf self)).setTimesteps N) N ref_x.isSome
            strength).num_inference_steps * ((mk (cfgOf self)).order : Int))
        (mk (cfgOf self)).order cb hc i = true) := by
  rw [inference_some registry ty mk hlook] at hok ⊢
  simp only [inferenceCore] at hok ⊢
  rw [denoiseLoop_ok _ _ _ _ _ _ _ _ _ _ _ hok]
  set P := prepareTimesteps self ((mk (cfgOf self)).setTimesteps N) N ref_x.isSome strength
    with hP
  set W : Int := (P.timesteps.length : Int) -
    P.num_inference_steps * ((mk (cfgOf self)).order : Int) with hW
  constructor
  · rintro ⟨t, ht⟩
    rcases List.mem_cons.1 ht with h | h
    · exact absurd h (by simp)
    rcases List.mem_append.1 h with h2 | h2
    · revert h2
      split <;> simp
    · obtain ⟨h0, hlt, hf⟩ := (callback_mem_okTrace (mk (cfgOf self)).order hc cb
        P.timesteps.length W P.timesteps 0 i).1 ⟨t, h2⟩
      exact ⟨by omega, hf⟩
  · rintro ⟨hlt, hf⟩
    obtain ⟨t, ht⟩ := (callback_mem_okTrace (mk (cfgOf self)).order hc cb
      P.timesteps.length W P.timesteps 0 i).2 ⟨Nat.zero_le i, by omega, hf⟩
    exact ⟨t, List.mem_cons.2 (Or.inr (List.mem_append.2 (Or.inr ht)))⟩

/-- Witness for C2 at a concrete run. -/
theorem C2_callback_cadence_witness :
    (inference exampleRegistry modelNoCap exNet noiseEx condEx none 2 none
        (strCodes "ddpm") true 1).result = Except.ok noiseEx ∧
    ((∃ t, Event.callbackCall 0 t
        (prepareTimesteps modelNoCap ((exampleMk (cfgOf modelNoCap)).setTimesteps 2) 2
          (none : Option Tensor).isSome none).timesteps.length ∈
        (inference exampleRegistry modelNoCap exNet noiseEx condEx none 2 none
          (strCodes "ddpm") true 1).trace) ↔
      (0 < (prepareTimesteps modelNoCap ((exampleMk (cfgOf modelNoCap)).setTimesteps 2) 2
          (none : Option Tensor).isSome none).timesteps.length ∧
        callbackFires
          (prepareTimesteps modelNoCap ((exampleMk (cfgOf modelNoCap)).setTimesteps 2) 2
            (none : Option Tensor).isSome none).timesteps.length
          (((prepareTimesteps modelNoCap ((exampleMk (cfgOf modelNoCap)).setTimesteps 2) 2
              (none : Option Tensor).isSome none).timesteps.length : Int) -
            (prepareTimesteps modelNoCap ((exampleMk (cfgOf modelNoCap)).setTimesteps 2) 2
              (none : Option Tensor).isSome none).num_inference_steps *
              (((exampleMk (cfgOf modelNoCap)).order : Nat) : Int))
          (exampleMk (cfgOf modelNoCap)).order 1 true 0 = true)) :=
  ⟨rfl,
   C2_callback_cadence exampleRegistry modelNoCap exNet noiseEx condEx none 2 none
     (strCodes "ddpm") true 1 exampleMk noiseEx 0 rfl rfl⟩

/-- C3: with an order-1 stepping strategy, no truncation (`ref_x` absent, full
sequence of length `N` from `set_timesteps(N)`) and `callback_steps = 1`, a
successful `inference` call invokes the callback exactly `N` times, once per
loop iteration, at strictly increasing indices `0, …, N-1`. -/
theorem C3_order_one_every_step (registry : List (PyStr × SchedulerMk))
    (self : GaussianDiffusion) (net : Tensor → Nat → Tensor → Tensor)
    (noise cond : Tensor) (N : Nat) (strength : Option ℚ) (ty : PyStr)
    (mk : SchedulerMk) (out : Tensor)
    (hlook : lookupScheduler registry ty = some mk)
    (horder : (mk (cfgOf self)).order = 1)
    (hlen : ((mk (cfgOf self)).setTimesteps N).length = N)
    (hok : (inference registry self net noise cond none N strength ty true 1).result =
      Except.ok out) :
    (inference registry self net noise cond none N strength ty true
      1).trace.filterMap cbIdx = List.range N := by
  rw [inference_some registry ty mk hlook] at hok ⊢
  simp only [inferenceCore, Option.isSome_none,
    prepareTimesteps_noRef self ((mk (cfgOf self)).setTimesteps N) N strength] at hok ⊢
  rw [denoiseLoop_ok _ _ _ _ _ _ _ _ _ _ _ hok]
  have hwarm : (((mk (cfgOf self)).setTimesteps N).length : Int) -
      ((N : Nat) : Int) * ((mk (cfgOf self)).order : Int) = 0 := by
    rw [hlen, horder]
    simp
  rw [hwarm, horder]
  simp only [warmInput, List.filterMap_cons, cbIdx, List.filterMap_append]
  rw [filterMap_okTrace _ _ _ _ _
    (fun j => callbackFires_order_one ((mk (cfgOf self)).setTimesteps N).length j)]
  simp [hlen, List.range_eq_range']

/-- Witness for C3 at a concrete run. -/
theorem C3_order_one_every_step_witness :
    (inference exampleRegistry modelNoCap exNet noiseEx condEx none 2 none
      (strCodes "ddpm") true 1).trace.filterMap cbIdx = List.range 2 :=
  C3_order_one_every_step exampleRegistry modelNoCap exNet noiseEx condEx 2 none
    (strCodes "ddpm") exampleMk noiseEx rfl rfl rfl rfl

/-- C7 (counterexample): a concrete `inference` call whose condition's trailing
dimension (5) differs from the sample's (3) in which the warm-start `add_noise`
and the first `scale_model_input` have already executed when the shape
violation is raised — the violation is not raised "before any computation
begins". -/
theorem C7_counterexample :
    condMismatch.shape.getLastD 0 ≠ noiseEx.shape.getLastD 0 ∧
    (inference exampleRegistry modelNoCap exNet noiseEx condMismatch (some refEx) 2
        (some 1) (strCodes "ddpm") true 1).trace =
      [Event.setTimesteps 2, Event.addNoise, Event.scaleModelInput 5] ∧
    (inference exampleRegistry modelNoCap exNet noiseEx condMismatch (some refEx) 2
        (some 1) (strCodes "ddpm") true 1).result =
      Except.error InferError.shapeMismatch := by
  have hprep : prepareTimesteps modelNoCap
      ((exampleMk (cfgOf modelNoCap)).setTimesteps 2) 2 (some refEx).isSome (some 1) =
      ⟨[5, 0], 2, true⟩ := by
    rw [show Option.isSome (some refEx) = true from rfl,
      prepareTimesteps_of_resolved modelNoCap _ 2 (some 1) 1
        (by norm_num [resolvedStrength]) (by norm_num)]
    have h2 : ⌊((2 : Nat) : ℚ) * 1⌋ = (2 : Int) := by norm_num
    rw [h2]
    norm_num
    decide
  have hrun : inference exampleRegistry modelNoCap exNet noiseEx condMismatch
      (some refEx) 2 (some 1) (strCodes "ddpm") true 1 =
      ⟨[Event.setTimesteps 2, Event.addNoise, Event.scaleModelInput 5],
       Except.error InferError.shapeMismatch, modelNoCap⟩ := by
    rw [inference_some exampleRegistry (strCodes "ddpm") exampleMk rfl]
    simp only [inferenceCore, hprep]
    rfl
  exact ⟨by decide, by rw [hrun], by rw [hrun]⟩

/-- C7 (amended): in every `inference` call in which the condition's trailing
dimension differs from that of the first model input, the shape violation is
raised at the first denoiser invocation — after the warm-start `add_noise`
(when one occurs) and after the first `scale_model_input`, but before the
denoiser computes, before any stepping-strategy step and before any callback;
and when the truncated timestep sequence is empty no violation is raised at
all. -/
theorem C7_shape_check_at_first_denoiser_call :
    (∀ (registry : List (PyStr × SchedulerMk)) (self : GaussianDiffusion)
        (net : Tensor → Nat → Tensor → Tensor) (noise cond : Tensor)
        (ref_x : Option Tensor) (N : Nat) (strength : Option ℚ) (ty : PyStr)
        (hc : Bool) (cb : Nat) (mk : SchedulerMk) (t0 : Nat) (rest : List Nat),
        lookupScheduler registry ty = some mk →
        (prepareTimesteps self ((mk (cfgOf self)).setTimesteps N) N ref_x.isSome
          strength).timesteps = t0 :: rest →
        ¬(cond.shape.getLastD 0 =
          ((mk (cfgOf self)).scaleModelInput
            (warmInput (mk (cfgOf self)) noise ref_x
              (prepareTimesteps self ((mk (cfgOf self)).setTimesteps N) N ref_x.isSome
                strength)).1 t0).shape.getLastD 0) →
        inference registry self net noise cond ref_x N strength ty hc cb =
          ⟨Event.setTimesteps N ::
            ((if (warmInput (mk (cfgOf self)) noise ref_x
                (prepareTimesteps self ((mk (cfgOf self)).setTimesteps N) N ref_x.isSome
                  strength)).2 then [Event.addNoise] else []) ++
              [Event.scaleModelInput t0]),
           Except.error InferError.shapeMismatch, self⟩) ∧
    (∀ (registry : List (PyStr × SchedulerMk)) (self : GaussianDiffusion)
        (net : Tensor → Nat → Tensor → Tensor) (noise cond : Tensor)
        (ref_x : Option Tensor) (N : Nat) (strength : Option ℚ) (ty : PyStr)
        (hc : Bool) (cb : Nat) (mk : SchedulerMk),
        lookupScheduler registry ty = some mk →
        (prepareTimesteps self ((mk (cfgOf self)).setTimesteps N) N ref_x.isSome
          strength).timesteps = [] →
        (inference registry self net noise cond ref_x N strength ty hc cb).result =
          Except.ok (warmInput (mk (cfgOf self)) noise ref_x
            (prepareTimesteps self ((mk (cfgOf self)).setTimesteps N) N ref_x.isSome
              strength)).1) := by
  constructor
  · intro registry self net noise cond ref_x N strength ty hc cb mk t0 rest hlook hts hmis
    rw [inference_some registry ty mk hlook]
    simp only [inferenceCore, hts]
    rw [denoiseLoop_cons_error _ _ _ _ _ _ _ _ _ _ _ hmis]
  · intro registry self net noise cond ref_x N strength ty hc cb mk hlook hts
    rw [inference_some registry ty mk hlook]
    simp only [inferenceCore, hts, denoiseLoop]

/-- Witness for the amended C7, at the counterexample's input (first part) and
at an empty-sequence input (second part). -/
theorem C7_shape_check_at_first_denoiser_call_witness :
    inference exampleRegistry modelNoCap exNet noiseEx condMismatch (some refEx) 2
        (some 1) (strCodes "ddpm") true 1 =
      ⟨Event.setTimesteps 2 ::
        ((if (warmInput (exampleMk (cfgOf modelNoCap)) noiseEx (some refEx)
            (prepareTimesteps modelNoCap ((exampleMk (cfgOf modelNoCap)).setTimesteps 2) 2
              (some refEx).isSome (some 1))).2 then [Event.addNoise] else []) ++
          [Event.scaleModelInput 5]),
       Except.error InferError.shapeMismatch, modelNoCap⟩ ∧
    (inference exampleRegistry modelNoCap exNet noiseEx condEx (some refEx) 2 (some 0)
        (strCodes "ddpm") true 1).result =
      Except.ok (warmInput (exampleMk (cfgOf modelNoCap)) noiseEx (some refEx)
        (prepareTimesteps modelNoCap ((exampleMk (cfgOf modelNoCap)).setTimesteps 2) 2
          (some refEx).isSome (some 0))).1 := by
  have hprep : prepareTimesteps modelNoCap
      ((exampleMk (cfgOf modelNoCap)).setTimesteps 2) 2 (some refEx).isSome (some 1) =
      ⟨[5, 0], 2, true⟩ := by
    rw [show Option.isSome (some refEx) = true from rfl,
      prepareTimesteps_of_resolved modelNoCap _ 2 (some 1) 1
        (by norm_num [resolvedStrength]) (by norm_num)]
    have h2 : ⌊((2 : Nat) : ℚ) * 1⌋ = (2 : Int) := by norm_num
    rw [h2]
    norm_num
    decide
  have hprep0 : prepareTimesteps modelNoCap
      ((exampleMk (cfgOf modelNoCap)).setTimesteps 2) 2 (some refEx).isSome (some 0) =
      ⟨[], 0, true⟩ := by
    rw [show Option.isSome (some refEx) = true from rfl,
      prepareTimesteps_zero modelNoCap ((exampleMk (cfgOf modelNoCap)).setTimesteps 2) 2]
    decide
  constructor
  · exact C7_shape_check_at_first_denoiser_call.1 exampleRegistry modelNoCap exNet noiseEx
      condMismatch (some refEx) 2 (some 1) (strCodes "ddpm") true 1 exampleMk 5 [0] rfl
      (by rw [hprep]) (by rw [hprep]; decide)
  · exact C7_shape_check_at_first_denoiser_call.2 exampleRegistry modelNoCap exNet noiseEx
      condEx (some refEx) 2 (some 0) (strCodes "ddpm") true 1 exampleMk rfl
      (by rw [hprep0])

/-- C8: every training-pair call on a batch of size `B` samples exactly `B`
timesteps via the uniform sampler over `[0, cap)` with `cap =
num_max_timesteps` when configured and `num_train_timesteps` otherwise, and
the returned noise target has exactly the shape of the input `x`. -/
theorem C8_training_pair_sampling (self : GaussianDiffusion)
    (randn : List Nat → Tensor) (randint : Nat → Nat → Nat → List Nat)
    (addNoise : Tensor → Tensor → List Nat → Tensor)
    (net : Tensor → List Nat → Tensor → Tensor) (x cond : Tensor)
    (hrandn : (randn x.shape).shape = x.shape)
    (hlen : (randint 0 (effectiveTimestepCap self) (x.shape.headD 0)).length =
      x.shape.headD 0)
    (hmem : ∀ v ∈ randint 0 (effectiveTimestepCap self) (x.shape.headD 0),
      v < effectiveTimestepCap self) :
    (gdForward self randn randint addNoise net x cond).timesteps =
      randint 0 (effectiveTimestepCap self) (x.shape.headD 0) ∧
    (gdForward self randn randint addNoise net x cond).timesteps.length =
      x.shape.headD 0 ∧
    (∀ v ∈ (gdForward self randn randint addNoise net x cond).timesteps,
      v < effectiveTimestepCap self) ∧
    (gdForward self randn randint addNoise net x cond).target.shape = x.shape ∧
    (∀ k, self.num_max_timesteps = some k → effectiveTimestepCap self = k) ∧
    (self.num_max_timesteps = none →
      effectiveTimestepCap self = self.num_train_timesteps) := by
  refine ⟨rfl, hlen, hmem, hrandn, ?_, ?_⟩
  · intro k hk
    unfold effectiveTimestepCap
    rw [hk]
  · intro hk
    unfold effectiveTimestepCap
    rw [hk]

/-- Witness for C8 at concrete inputs. -/
theorem C8_training_pair_sampling_witness :
    (gdForward exampleModel (fun s => ⟨s, []⟩) (fun _ _ n => List.replicate n 0)
        (fun a _ _ => a) (fun a _ _ => a) noiseEx condEx).timesteps =
      List.replicate 1 0 ∧
    (gdForward exampleModel (fun s => ⟨s, []⟩) (fun _ _ n => List.replicate n 0)
        (fun a _ _ => a) (fun a _ _ => a) noiseEx condEx).timesteps.length = 1 ∧
    (gdForward exampleModel (fun s => ⟨s, []⟩) (fun _ _ n => List.replicate n 0)
        (fun a _ _ => a) (fun a _ _ => a) noiseEx condEx).target.shape = [1, 1, 3] := by
  obtain ⟨h1, h2, -, h4, -, -⟩ := C8_training_pair_sampling exampleModel
    (fun s => ⟨s, []⟩) (fun _ _ n => List.replicate n 0) (fun a _ _ => a)
    (fun a _ _ => a) noiseEx condEx rfl (by decide) (by decide)
  exact ⟨h1, h2, h4⟩

end PaddleDiffusion
